import Mathlib

/-!
Verification of the payloops processor-stripe durable-execution core:
the webhook delivery engine (src/functions/index.ts, deliverWebhook),
the webhook delivery state machine (src/workflows/webhook.ts) and the
payment completion state machine (src/workflows/payment.ts), shallowly
embedded as pure Lean functions.  Timestamps are milliseconds as Nat,
thrown JS errors are modelled by their message string, and external
collaborators (the database row, the HTTP fetch outcome, the gateway,
the signal channel) are explicit inputs.
-/

namespace Payloops

/-! ## Webhook event record and drizzle update semantics -/

/-- One row of the webhookEvents table, the columns deliverWebhook touches.
Nullable columns are Options. -/
structure WebhookEventRecord where
  status : String
  attempts : Nat
  lastAttemptAt : Option Nat
  deliveredAt : Option Nat
  nextRetryAt : Option Nat
deriving Repr, DecidableEq

/-- The argument of drizzle .set({...}) in deliverWebhook: each field is

either a concrete value or undefined (modelled as none). -/
structure WebhookEventSet where
  status : Option String := none
  attempts : Option Nat := none
  lastAttemptAt : Option Nat := none
  deliveredAt : Option Nat := none
  nextRetryAt : Option Nat := none

/-- drizzle-orm .set() column semantics for a nullable column: a field whose
value is undefined is filtered out of the UPDATE (drizzle mapUpdateSet keeps
only entries whose value is not undefined), so the stored value is kept; a
defined value overwrites.  The code never writes SQL NULL to these columns. -/
def setCol {α : Type} (new : Option α) (old : Option α) : Option α :=
  match new with
  | some v => some v
  | none => old

/-- Apply one drizzle .set({...}) to a stored row (undefined fields skipped). -/
def applySet (r : WebhookEventRecord) (s : WebhookEventSet) : WebhookEventRecord :=
  { status := s.status.getD r.status
    attempts := s.attempts.getD r.attempts
    lastAttemptAt := setCol s.lastAttemptAt r.lastAttemptAt
    deliveredAt := setCol s.deliveredAt r.deliveredAt
    nextRetryAt := setCol s.nextRetryAt r.nextRetryAt }

/-! ## Webhook delivery engine (src/functions/index.ts, deliverWebhook) -/

/-- Outcome of the fetch() call: an HTTP response with a status code, or a
rejection (network failure, or the 30 s AbortSignal timeout) caught by the
catch block, carrying the error message. -/
inductive FetchOutcome where
  | response (status : Nat)
  | failure (message : String)
deriving Repr, DecidableEq

/-- Response.ok of the fetch API: status in the inclusive range 200..299. -/
def responseOk (status : Nat) : Bool :=
  200 ≤ status && status ≤ 299

/-- delay = Math.min(baseDelay * Math.pow(2, attempts - 1), maxDelay) with
baseDelay = 60 * 1000 and maxDelay = 24 * 60 * 60 * 1000, as computed (twice,
identically) in deliverWebhook. -/
def backoffDelay (attempts : Nat) : Nat :=
  min (60 * 1000 * 2 ^ (attempts - 1)) (24 * 60 * 60 * 1000)

/-- The WebhookDeliveryResult interface. -/
structure WebhookDeliveryResult where
  success : Bool
  statusCode : Option Nat := none
  attempts : Nat
  deliveredAt : Option Nat := none
  errorMessage : Option String := none
deriving Repr, DecidableEq

/-- JS truthiness of a string-or-undefined value: undefined and the empty
string are falsy. -/
def strTruthy : Option String → Bool
  | none => false
  | some s => !(s == "")

/-- The HTTP request handed to fetch(). -/
structure HttpRequest where
  url : String
  method : String
  headers : List (String × String)
  body : String
deriving Repr, DecidableEq

/-- Lines 193-205 of src/functions/index.ts: body := JSON.stringify(payload)
(taken here as the already-serialized string), the three base headers, and,
if the secret is truthy, the X-Loop-Signature header v1={hex HMAC-SHA256 of
"{timestamp}.{body}" keyed by the secret}.  hmacSha256Hex abstracts
crypto.createHmac(sha256, secret).update(msg).digest(hex); now is Date.now(). -/
def buildWebhookRequest (hmacSha256Hex : String → String → String)
    (webhookEventId webhookUrl : String) (webhookSecret : Option String)
    (body : String) (now : Nat) : HttpRequest :=
  let headers : List (String × String) :=
    [("Content-Type", "application/json"),
     ("X-Loop-Event-Id", webhookEventId),
     ("X-Loop-Timestamp", toString now)]
  let headers :=
    if strTruthy webhookSecret then
      let timestamp := toString now
      let signaturePayload := timestamp ++ "." ++ body
      let signature := hmacSha256Hex (webhookSecret.getD "") signaturePayload
      headers ++ [("X-Loop-Signature", "v1=" ++ signature)]
    else headers
  { url := webhookUrl, method := "POST", headers := headers, body := body }

/-- deliverWebhook (src/functions/index.ts lines 178-257), state-passing form.
db is the webhookEvents row selected by id (none when absent: the read
event[0]?.attempts || 0 then yields 0 and the UPDATE matches no row); outcome
is what fetch() produced; now is Date.now() for this attempt.  Returns the
row after the UPDATE and the WebhookDeliveryResult the function returns. -/
def deliverWebhook (db : Option WebhookEventRecord) (outcome : FetchOutcome)
    (now : Nat) : Option WebhookEventRecord × WebhookDeliveryResult :=
  let attempts := (match db with | some e => e.attempts | none => 0) + 1
  match outcome with
  | .response status =>
      let success := responseOk status
      let delay := backoffDelay attempts
      let upd : WebhookEventSet :=
        { status := some (if success then "delivered" else "pending")
          attempts := some attempts
          lastAttemptAt := some now
          deliveredAt := if success then some now else none
          nextRetryAt := if success then none else some (now + delay) }
      (db.map (fun e => applySet e upd),
       { success := success
         statusCode := some status
         attempts := attempts
         deliveredAt := if success then some now else none
         errorMessage := if success then none else some ("HTTP " ++ toString status) })
  | .failure msg =>
      let delay := backoffDelay attempts
      let upd : WebhookEventSet :=
        { status := some (if 5 ≤ attempts then "failed" else "pending")
          attempts := some attempts
          lastAttemptAt := some now
          nextRetryAt := if 5 ≤ attempts then none else some (now + delay) }
      (db.map (fun e => applySet e upd),
       { success := false, attempts := attempts, errorMessage := some msg })

/-! ## Webhook delivery state machine (src/workflows/webhook.ts) -/

def MAX_ATTEMPTS : Nat := 5

def RETRY_DELAYS : List Nat :=
  [60 * 1000, 5 * 60 * 1000, 30 * 60 * 1000, 2 * 60 * 60 * 1000, 24 * 60 * 60 * 1000]

/-- Line 73: RETRY_DELAYS[attempt - 1] || RETRY_DELAYS[RETRY_DELAYS.length - 1].
Out-of-range JS indexing yields undefined, which is falsy, so || falls back to
the last entry; every entry is nonzero so an in-range entry is kept. -/
def retrySleepDelay (attempt : Nat) : Nat :=
  (RETRY_DELAYS.get? (attempt - 1)).getD (RETRY_DELAYS.getD (RETRY_DELAYS.length - 1) 0)

/-- JS a || b for a : string | undefined (undefined and "" are falsy). -/
def jsOr (a : Option String) (b : String) : String :=
  match a with
  | some v => if v == "" then b else v
  | none => b

/-- What the webhook workflow run produced, and whether it came from the
post-loop fallback return (line 77) rather than a return inside the loop. -/
structure WorkflowLoopOutcome where
  result : WebhookDeliveryResult
  fromFallback : Bool
deriving Repr, DecidableEq

/-- The while loop of WebhookDeliveryWorkflow (lines 44-77).  results k is
the WebhookDeliveryResult of the k-th deliverWebhook activity call (1-based).
remaining is structural fuel maintained as MAX_ATTEMPTS - attempt, so
remaining = 0 exactly when the loop guard attempt < MAX_ATTEMPTS is false. -/
def webhookLoopGo (results : Nat → WebhookDeliveryResult) :
    Nat → Nat → Option WebhookDeliveryResult → WorkflowLoopOutcome
  | Nat.succ remaining, attempt, _lastResult =>
      let attempt1 := attempt + 1
      let result := results attempt1
      if result.success then
        { result := result, fromFallback := false }
      else if MAX_ATTEMPTS ≤ attempt1 then
        { result := { success := false, attempts := attempt1,
                      errorMessage := some (jsOr result.errorMessage "Max attempts reached") }
          fromFallback := false }
      else
        -- await sleep(retrySleepDelay attempt1) happens here
        webhookLoopGo results remaining attempt1 (some result)
  | 0, attempt, lastResult =>
      { result := lastResult.getD
          { success := false, attempts := attempt, errorMessage := some "Unknown error" }
        fromFallback := true }

/-- WebhookDeliveryWorkflow after the secret lookup: attempt starts at 0,
lastResult at null, loop fuel MAX_ATTEMPTS - 0. -/
def WebhookDeliveryWorkflowLoop (results : Nat → WebhookDeliveryResult) :
    WorkflowLoopOutcome :=
  webhookLoopGo results (MAX_ATTEMPTS - 0) 0 none

/-! ## Payment completion state machine (src/workflows/payment.ts) -/

/-- The PaymentResult shape from processor-core, the fields this workflow
reads or builds. -/
structure PaymentResult where
  success : Bool
  status : String
  processorOrderId : Option String := none
  processorTransactionId : Option String := none
  redirectUrl : Option String := none
  errorCode : Option String := none
  errorMessage : Option String := none
deriving Repr, DecidableEq

structure PaymentWorkflowInput where
  orderId : String
  merchantId : String
  amount : Nat
  currency : String
  returnUrl : Option String := none
deriving Repr, DecidableEq

structure PaymentConfig where
  merchantId : String
  processor : String
  testMode : Bool
  credentials : List (String × String)
deriving Repr, DecidableEq

/-- A signal delivered into the run: completePayment with its payload (lines
38-40) or cancelPayment (line 42). -/
inductive PaymentSignal where
  | completePayment (success : Bool) (processorTransactionId : Option String)
  | cancelPayment
deriving Repr, DecidableEq

/-- The three workflow-local variables the signal handlers mutate (lines 45-47). -/
structure SignalState where
  paymentCompleted : Bool
  paymentResult : Option PaymentResult
  cancelled : Bool
deriving Repr, DecidableEq

def initialSignalState : SignalState :=
  { paymentCompleted := false, paymentResult := none, cancelled := false }

/-- The two setHandler bodies (lines 50-62): completePayment unconditionally
sets paymentCompleted and overwrites paymentResult from the signal payload;
cancelPayment sets cancelled. -/
def handleSignal (s : SignalState) : PaymentSignal → SignalState
  | .completePayment success ptid =>
      { s with paymentCompleted := true
               paymentResult := some { success := success
                                       status := if success then "captured" else "failed"
                                       processorTransactionId := ptid } }
  | .cancelPayment => { s with cancelled := true }

/-- State of the handler variables after a list of signal deliveries, applied
in delivery order. -/
def applySignals (signals : List PaymentSignal) : SignalState :=
  signals.foldl handleSignal initialSignalState

/-- The argument object of backend.updateOrderStatus. -/
structure UpdateOrderStatusInput where
  orderId : String
  status : String
  processorOrderId : Option String := none
  processorTransactionId : Option String := none
deriving Repr, DecidableEq

/-- The awaited steps of a payment run, in program order: the config lookup,
the gateway call, the condition(...) wait and each order-status persistence
call. -/
inductive WorkflowAction where
  | getProcessorConfig (merchantId : String) (processor : String)
  | processPayment
  | conditionWait (timeoutMs : Nat)
  | updateOrderStatus (args : UpdateOrderStatusInput)
deriving Repr, DecidableEq

/-- Everything the run observes from outside.  config is what
backend.getProcessorConfig returns; gateway what stripe.processPayment
produces (Except.error m models the activity raising an error with message
m); signals are the deliveries the handlers process before the post-wait code
runs; updateOutcome n is the outcome of the n-th (0-based)
backend.updateOrderStatus call, none for success or some m for the activity
raising message m. -/
structure PaymentEnv where
  config : Option PaymentConfig
  gateway : Except String PaymentResult
  signals : List PaymentSignal
  updateOutcome : Nat → Option String

/-- Run bookkeeping: the actions so far and how many updateOrderStatus calls
were made (to index updateOutcome). -/
structure RunState where
  trace : List WorkflowAction
  nUpdates : Nat

/-- One await backend.updateOrderStatus(args): records the call and reports
this call's outcome. -/
def doUpdateOrderStatus (env : PaymentEnv) (st : RunState)
    (args : UpdateOrderStatusInput) : RunState × Option String :=
  ({ trace := st.trace ++ [.updateOrderStatus args], nUpdates := st.nUpdates + 1 },
   env.updateOutcome st.nUpdates)

/-- The try block of PaymentWorkflow (lines 64-132).  Except.error m is a
raised error reaching the catch block with message m (for an activity
failure, its message; the code maps a non-Error throw to "Unknown error",
which the message-string model subsumes). -/
def PaymentWorkflowTry (env : PaymentEnv) (input : PaymentWorkflowInput)
    (st : RunState) : RunState × Except String PaymentResult :=
  -- Step 1: const config = await backend.getProcessorConfig({...})
  let st := { st with trace := st.trace ++ [.getProcessorConfig input.merchantId "stripe"] }
  match env.config with
  | none =>
      let (st, err) := doUpdateOrderStatus env st { orderId := input.orderId, status := "failed" }
      match err with
      | some e => (st, .error e)
      | none => (st, .ok { success := false, status := "failed"
                           errorCode := some "no_processor_config"
                           errorMessage := some "Stripe processor not configured for merchant" })
  | some _config =>
      -- Step 2: const result = await stripe.processPayment({...}, config)
      let st := { st with trace := st.trace ++ [.processPayment] }
      match env.gateway with
      | .error e => (st, .error e)
      | .ok result =>
          if result.status == "requires_action" then
            let (st, err) := doUpdateOrderStatus env st
              { orderId := input.orderId, status := "requires_action"
                processorOrderId := result.processorOrderId }
            match err with
            | some e => (st, .error e)
            | none =>
              -- const completed = await condition(() => paymentCompleted || cancelled, timeout)
              let st := { st with trace := st.trace ++ [.conditionWait (15 * 60 * 1000)] }
              let s := applySignals env.signals
              let completed := s.paymentCompleted || s.cancelled
              if s.cancelled then
                let (st, err) := doUpdateOrderStatus env st
                  { orderId := input.orderId, status := "cancelled" }
                match err with
                | some e => (st, .error e)
                | none => (st, .ok { success := false, status := "failed"
                                     errorCode := some "cancelled"
                                     errorMessage := some "Payment cancelled" })
              else if !completed || !s.paymentCompleted then
                let (st, err) := doUpdateOrderStatus env st
                  { orderId := input.orderId, status := "failed" }
                match err with
                | some e => (st, .error e)
                | none => (st, .ok { success := false, status := "failed"
                                     errorCode := some "timeout"
                                     errorMessage := some "Payment timeout" })
              else
                match s.paymentResult with
                | some finalResult =>
                    let (st, err) := doUpdateOrderStatus env st
                      { orderId := input.orderId, status := finalResult.status
                        processorOrderId := result.processorOrderId
                        processorTransactionId := finalResult.processorTransactionId }
                    match err with
                    | some e => (st, .error e)
                    | none => (st, .ok finalResult)
                | none =>
                    -- fall through to the shared lines 124-132 block
                    let (st, err) := doUpdateOrderStatus env st
                      { orderId := input.orderId, status := result.status
                        processorOrderId := result.processorOrderId
                        processorTransactionId := result.processorTransactionId }
                    match err with
                    | some e => (st, .error e)
                    | none => (st, .ok result)
          else
            -- lines 124-132: await backend.updateOrderStatus({...}); return result
            let (st, err) := doUpdateOrderStatus env st
              { orderId := input.orderId, status := result.status
                processorOrderId := result.processorOrderId
                processorTransactionId := result.processorTransactionId }
            match err with
            | some e => (st, .error e)
            | none => (st, .ok result)

/-- PaymentWorkflow (lines 44-144): the try block, then the catch block
(lines 133-143) for a raised error, whose own updateOrderStatus call may
itself raise and then faults the whole run (Except.error). -/
def PaymentWorkflow (env : PaymentEnv) (input : PaymentWorkflowInput) :
    List WorkflowAction × Except String PaymentResult :=
  match PaymentWorkflowTry env input { trace := [], nUpdates := 0 } with
  | (st, .ok result) => (st.trace, .ok result)
  | (st, .error e) =>
      let errorMessage := e
      let (st, err) := doUpdateOrderStatus env st
        { orderId := input.orderId, status := "failed" }
      match err with
      | some e2 => (st.trace, .error e2)
      | none => (st.trace, .ok { success := false, status := "failed"
                                 errorCode := some "workflow_error"
                                 errorMessage := some errorMessage })

/-- Bool test for the order-status persistence actions of a trace. -/
def isUpdate : WorkflowAction → Bool
  | .updateOrderStatus _ => true
  | _ => false

/-- The status argument of a persistence action. -/
def actionStatus : WorkflowAction → Option String
  | .updateOrderStatus args => some args.status
  | _ => none

/-- The orderId argument of a persistence action. -/
def actionOrderId : WorkflowAction → Option String
  | .updateOrderStatus args => some args.orderId
  | _ => none

/-! ## Concrete scenario instances (for closed witnesses and counterexamples) -/

def sampleConfig : PaymentConfig :=
  { merchantId := "m1", processor := "stripe", testMode := true, credentials := [] }

def requiresActionResult : PaymentResult :=
  { success := false, status := "requires_action", processorOrderId := some "pi_1" }

def capturedResult : PaymentResult :=
  { success := true, status := "captured", processorOrderId := some "pi_1",
    processorTransactionId := some "tx_1" }

def witnessInput : PaymentWorkflowInput :=
  { orderId := "o1", merchantId := "m1", amount := 4999, currency := "usd" }

/-- requires_action, then neither signal: the 15-minute wait times out. -/
def timeoutEnv : PaymentEnv :=
  { config := some sampleConfig, gateway := .ok requiresActionResult,
    signals := [], updateOutcome := fun _ => none }

/-- requires_action, then a completion signal followed by a cancellation. -/
def cancelEnv : PaymentEnv :=
  { config := some sampleConfig, gateway := .ok requiresActionResult,
    signals := [.completePayment true (some "tx_first"), .cancelPayment],
    updateOutcome := fun _ => none }

/-- requires_action, then two completion signals before the wait exits. -/
def signalRaceEnv : PaymentEnv :=
  { config := some sampleConfig, gateway := .ok requiresActionResult,
    signals := [.completePayment true (some "tx_first"),
                .completePayment false (some "tx_second")],
    updateOutcome := fun _ => none }

/-- captured outcome whose terminal order-status write raises; the catch-block
write succeeds. -/
def writeFailEnv : PaymentEnv :=
  { config := some sampleConfig, gateway := .ok capturedResult,
    signals := [], updateOutcome := fun n => if n == 0 then some "db write failed" else none }

/-- A stand-in keyed hash for witness instances of the abstract hmacSha256Hex
collaborator. -/
def sampleHmac (key msg : String) : String := key ++ ":" ++ msg

/-- requires_action with no signal, whose terminal (timeout-path) order-status
write raises; the catch-block write succeeds. -/
def timeoutWriteFailEnv : PaymentEnv :=
  { config := some sampleConfig, gateway := .ok requiresActionResult,
    signals := [], updateOutcome := fun n => if n == 1 then some "db down" else none }

/-- The order-status persistence write of the run's terminal-state update
raises with message msg.  On the missing-config path and on a direct-terminal
gateway outcome that write is the first persistence call of the run; on a
requires_action path whose intermediate requires_action write succeeded it is
the second, whichever of the three wait resolutions (completion signal,
cancellation, timeout) performs it. -/
def terminalWriteRaises (env : PaymentEnv) (msg : String) : Prop :=
  (env.config = none ∧ env.updateOutcome 0 = some msg) ∨
  (∃ c r, env.config = some c ∧ env.gateway = .ok r ∧ r.status ≠ "requires_action" ∧
     env.updateOutcome 0 = some msg) ∨
  (∃ c r, env.config = some c ∧ env.gateway = .ok r ∧ r.status = "requires_action" ∧
     env.updateOutcome 0 = none ∧ env.updateOutcome 1 = some msg)

/-- Index of the catch-block updateOrderStatus call when the terminal write of
the run raises: one past the persistence calls the try block made. -/
def catchWriteIdx (env : PaymentEnv) : Nat :=
  match env.config, env.gateway with
  | some _, .ok r => if r.status == "requires_action" then 2 else 1
  | _, _ => 1

/-! ## Signal-state lemmas -/

/-- The cancelled variable after a fold of deliveries is set exactly when it
already was or a cancelPayment delivery occurs. -/
theorem foldl_handleSignal_cancelled_iff (l : List PaymentSignal) (s : SignalState) :
    (l.foldl handleSignal s).cancelled = true ↔
      (s.cancelled = true ∨ PaymentSignal.cancelPayment ∈ l) := by
  induction l generalizing s with
  | nil => simp
  | cons x xs ih =>
    cases x with
    | completePayment b p => simp [handleSignal, ih]
    | cancelPayment => simp [handleSignal, ih]

/-- cancelled is observed after the deliveries exactly when one of them was a
cancelPayment. -/
theorem applySignals_cancelled_iff (l : List PaymentSignal) :
    (applySignals l).cancelled = true ↔ PaymentSignal.cancelPayment ∈ l := by
  unfold applySignals
  rw [foldl_handleSignal_cancelled_iff]
  simp [initialSignalState]

/-- A completePayment delivery overwrites paymentResult with a record built
from its own payload, whatever came before it. -/
theorem applySignals_append_completePayment (sigs : List PaymentSignal) (b : Bool)
    (p : Option String) :
    applySignals (sigs ++ [.completePayment b p]) =
      { paymentCompleted := true
        paymentResult := some { success := b, status := if b then "captured" else "failed",
                                processorTransactionId := p }
        cancelled := (applySignals sigs).cancelled } := by
  unfold applySignals
  rw [List.foldl_append]
  rfl

/-! ## C1: engine backoff versus the state machine sleep schedule -/

/-- C1 (amended): for attempt index a >= 1, the delay the engine persists into
nextRetryAt, backoffDelay a = min(60000 * 2^(a-1), 86400000), equals the delay
the webhook state machine sleeps, retrySleepDelay a, exactly when a = 1 or
a >= 12 (where both are clamped to 86400000); for 2 <= a <= 11 the two
disagree, so in particular they do not both equal the schedule
[60000, 300000, 1800000, 7200000, 86400000] on attempts 1..5. -/
theorem engineBackoff_eq_scheduleDelay_iff (a : Nat) (ha : 1 ≤ a) :
    backoffDelay a = retrySleepDelay a ↔ (a = 1 ∨ 12 ≤ a) := by
  constructor
  · intro h
    by_contra hc
    push_neg at hc
    obtain ⟨h1, h12⟩ := hc
    have h2 : 2 ≤ a := by omega
    have h11 : a ≤ 11 := by omega
    interval_cases a <;> revert h <;> decide
  · rintro (rfl | h12)
    · decide
    · have hget : RETRY_DELAYS.get? (a - 1) = none := by
        rw [List.get?_eq_none]
        simp [RETRY_DELAYS]
        omega
      have h1 : retrySleepDelay a = 24 * 60 * 60 * 1000 := by
        unfold retrySleepDelay
        rw [hget]
        decide
      have hpow : (2 : Nat) ^ 11 ≤ 2 ^ (a - 1) :=
        Nat.pow_le_pow_right (by norm_num) (by omega)
      have hbig : 24 * 60 * 60 * 1000 ≤ 60 * 1000 * 2 ^ (a - 1) := by
        calc (24 * 60 * 60 * 1000 : Nat) ≤ 60 * 1000 * 2 ^ 11 := by norm_num
        _ ≤ 60 * 1000 * 2 ^ (a - 1) := Nat.mul_le_mul_left _ hpow
      have h2 : backoffDelay a = 24 * 60 * 60 * 1000 := by
        unfold backoffDelay
        omega
      rw [h1, h2]

/-- C1 counterexample: at attempt index 2 the engine persists a 120000 ms
delay while the state machine sleeps 300000 ms, so the two schedules differ
(the claimed agreement fails already at a = 2). -/
theorem engineBackoff_ne_scheduleDelay_at_two :
    backoffDelay 2 = 120000 ∧ retrySleepDelay 2 = 300000 ∧
      backoffDelay 2 ≠ retrySleepDelay 2 := by decide

/-- C1 witness: the amended equivalence, instantiated at attempt index 13. -/
theorem engineBackoff_eq_scheduleDelay_iff_witness :
    backoffDelay 13 = retrySleepDelay 13 ↔ (13 = 1 ∨ 12 ≤ 13) :=
  engineBackoff_eq_scheduleDelay_iff 13 (by decide)

/-! ## C2: persisted status on the fifth unsuccessful attempt -/

/-- C2 (code bug): a fifth delivery attempt (stored attempts = 4) that gets a
non-2xx HTTP 500 response is persisted by deliverWebhook with status
"pending" and a scheduled nextRetryAt, not the terminal "failed": the
attempts >= 5 check exists only in the transport-failure catch branch, so
exhaustion by HTTP failures leaves the record permanently pending. -/
theorem fifthHttpFailure_persists_pending :
    deliverWebhook (some { status := "pending", attempts := 4, lastAttemptAt := some 0,
                           deliveredAt := none, nextRetryAt := some 0 })
        (.response 500) 1000 =
      (some { status := "pending", attempts := 5, lastAttemptAt := some 1000,
              deliveredAt := none, nextRetryAt := some 961000 },
       { success := false, statusCode := some 500, attempts := 5,
         deliveredAt := none, errorMessage := some "HTTP 500" }) := by rfl

/-! ## C8: the nextRetryAt-iff-pending record invariant -/

/-- C8 (code bug): after a failed first attempt set nextRetryAt, a successful
second attempt is persisted with status "delivered" while the stale
nextRetryAt survives: the code writes nextRetryAt: undefined, which the
drizzle .set() skips instead of clearing, so the persisted record violates
the claimed invariant that nextRetryAt is set iff status is "pending". -/
theorem staleNextRetryAt_after_success :
    deliverWebhook (some { status := "pending", attempts := 1, lastAttemptAt := some 100,
                           deliveredAt := none, nextRetryAt := some 60100 })
        (.response 200) 200000 =
      (some { status := "delivered", attempts := 2, lastAttemptAt := some 200000,
              deliveredAt := some 200000, nextRetryAt := some 60100 },
       { success := true, statusCode := some 200, attempts := 2,
         deliveredAt := some 200000, errorMessage := none }) := by rfl

/-! ## C9: shape of the delivery request -/

/-- C9 (confirmed): every delivery request is a POST to the given url whose
body is the serialized payload, with Content-Type application/json, the
event-id header, the millisecond timestamp header, and a signature header
exactly when a (truthy) secret is configured, whose value is v1= followed by
the keyed hash of the string timestamp ++ "." ++ body with the same
timestamp the timestamp header carries; with no secret no signature header
exists. -/
theorem webhookRequest_shape (hmac : String → String → String)
    (webhookEventId webhookUrl body : String) (webhookSecret : Option String) (now : Nat)
    (req : HttpRequest)
    (hreq : req = buildWebhookRequest hmac webhookEventId webhookUrl webhookSecret body now) :
    req.method = "POST" ∧
    req.url = webhookUrl ∧
    req.body = body ∧
    req.headers.lookup "Content-Type" = some "application/json" ∧
    req.headers.lookup "X-Loop-Event-Id" = some webhookEventId ∧
    req.headers.lookup "X-Loop-Timestamp" = some (toString now) ∧
    (∀ s, webhookSecret = some s → s ≠ "" →
      req.headers.lookup "X-Loop-Signature" =
        some ("v1=" ++ hmac s (toString now ++ "." ++ body))) ∧
    (strTruthy webhookSecret = false →
      req.headers.lookup "X-Loop-Signature" = none) := by
  subst hreq
  unfold buildWebhookRequest
  by_cases hs : strTruthy webhookSecret
  · simp only [hs, if_true]
    refine ⟨trivial, trivial, trivial, ?_, ?_, ?_, ?_, ?_⟩
    · simp [List.lookup]
    · simp [List.lookup]
    · simp [List.lookup]
    · intro s hws hne
      subst hws
      simp [List.lookup, Option.getD]
    · intro hfalse
      exact absurd hfalse (by decide)
  · simp only [hs, if_false]
    refine ⟨trivial, trivial, trivial, ?_, ?_, ?_, ?_, ?_⟩
    · simp [List.lookup]
    · simp [List.lookup]
    · simp [List.lookup]
    · intro s hws hne
      exfalso
      apply hs
      rw [hws]
      simp [strTruthy, hne]
    · intro _
      simp [List.lookup]

/-- C9 witness: the signature header of a concrete signed request. -/
theorem webhookRequest_shape_witness :
    (buildWebhookRequest sampleHmac "evt_1" "https://example.com/hook" (some "whsec_abc")
        "payload" 1234).headers.lookup "X-Loop-Signature" =
      some ("v1=" ++ sampleHmac "whsec_abc" (toString 1234 ++ "." ++ "payload")) :=
  (webhookRequest_shape sampleHmac "evt_1" "https://example.com/hook" "payload"
      (some "whsec_abc") 1234 _ rfl).2.2.2.2.2.2.1 "whsec_abc" rfl (by decide)

/-! ## C10: the retry loop returns within five attempts -/

/-- C10 (confirmed): for every sequence of delivery-engine results, the
webhook state machine loop returns from inside the loop within five engine
calls: the first successful result, or on the fifth unsuccessful call the
exhaustion failure carrying the last errorMessage (Max attempts reached when
that is absent or empty); the post-loop fallback returning Unknown error is
never the source of the outcome. -/
theorem webhookLoop_returns_within_five (results : Nat → WebhookDeliveryResult) :
    (WebhookDeliveryWorkflowLoop results).fromFallback = false ∧
    ((∃ k, 1 ≤ k ∧ k ≤ 5 ∧ (results k).success = true ∧
        (∀ j, 1 ≤ j → j < k → (results j).success = false) ∧
        (WebhookDeliveryWorkflowLoop results).result = results k) ∨
      ((∀ j, 1 ≤ j → j ≤ 5 → (results j).success = false) ∧
        (WebhookDeliveryWorkflowLoop results).result =
          { success := false, attempts := 5,
            errorMessage := some (jsOr (results 5).errorMessage "Max attempts reached") })) := by
  by_cases h1 : (results 1).success = true
  · exact ⟨by simp [WebhookDeliveryWorkflowLoop, webhookLoopGo, MAX_ATTEMPTS, h1],
      .inl ⟨1, by omega, by omega, h1, fun j hj1 hj2 => absurd hj1 (by omega),
        by simp [WebhookDeliveryWorkflowLoop, webhookLoopGo, MAX_ATTEMPTS, h1]⟩⟩
  · have h1f : (results 1).success = false := by simpa using h1
    by_cases h2 : (results 2).success = true
    · refine ⟨by simp [WebhookDeliveryWorkflowLoop, webhookLoopGo, MAX_ATTEMPTS, h1f, h2],
        .inl ⟨2, by omega, by omega, h2, ?_,
          by simp [WebhookDeliveryWorkflowLoop, webhookLoopGo, MAX_ATTEMPTS, h1f, h2]⟩⟩
      intro j hj1 hj2
      interval_cases j
      exact h1f
    · have h2f : (results 2).success = false := by simpa using h2
      by_cases h3 : (results 3).success = true
      · refine ⟨by simp [WebhookDeliveryWorkflowLoop, webhookLoopGo, MAX_ATTEMPTS, h1f, h2f, h3],
          .inl ⟨3, by omega, by omega, h3, ?_,
            by simp [WebhookDeliveryWorkflowLoop, webhookLoopGo, MAX_ATTEMPTS, h1f, h2f, h3]⟩⟩
        intro j hj1 hj2
        interval_cases j <;> assumption
      · have h3f : (results 3).success = false := by simpa using h3
        by_cases h4 : (results 4).success = true
        · refine ⟨by simp [WebhookDeliveryWorkflowLoop, webhookLoopGo, MAX_ATTEMPTS,
              h1f, h2f, h3f, h4],
            .inl ⟨4, by omega, by omega, h4, ?_,
              by simp [WebhookDeliveryWorkflowLoop, webhookLoopGo, MAX_ATTEMPTS,
                h1f, h2f, h3f, h4]⟩⟩
          intro j hj1 hj2
          interval_cases j <;> assumption
        · have h4f : (results 4).success = false := by simpa using h4
          by_cases h5 : (results 5).success = true
          · refine ⟨by simp [WebhookDeliveryWorkflowLoop, webhookLoopGo, MAX_ATTEMPTS,
                h1f, h2f, h3f, h4f, h5],
              .inl ⟨5, by omega, by omega, h5, ?_,
                by simp [WebhookDeliveryWorkflowLoop, webhookLoopGo, MAX_ATTEMPTS,
                  h1f, h2f, h3f, h4f, h5]⟩⟩
            intro j hj1 hj2
            interval_cases j <;> assumption
          · have h5f : (results 5).success = false := by simpa using h5
            refine ⟨by simp [WebhookDeliveryWorkflowLoop, webhookLoopGo, MAX_ATTEMPTS,
                h1f, h2f, h3f, h4f, h5f],
              .inr ⟨?_, by simp [WebhookDeliveryWorkflowLoop, webhookLoopGo, MAX_ATTEMPTS,
                h1f, h2f, h3f, h4f, h5f]⟩⟩
            intro j hj1 hj5
            interval_cases j <;> assumption

/-! ## C3: racing completion signals -/

/-- C3 counterexample: with two completion signals delivered before the wait
exits (first success = true with tx_first, second success = false with
tx_second), the run result is derived from the second signal, which differs
from the result the first signal would give, so the second delivery is not a
no-op. -/
theorem secondCompletionSignal_applied_cex :
    (PaymentWorkflow signalRaceEnv witnessInput).2 =
      .ok { success := false, status := "failed", processorTransactionId := some "tx_second" } ∧
    ({ success := false, status := "failed", processorTransactionId := some "tx_second" }
        : PaymentResult) ≠
      { success := true, status := "captured", processorTransactionId := some "tx_first" } :=
  ⟨rfl, by decide⟩

/-- C3 (amended): when several completion signals are delivered before the
run exits its wait (and no cancellation is observed), the run result and the
terminal persisted order status are derived from the LAST completion signal:
each delivery overwrites the stored paymentResult, so earlier deliveries have
no effect on the outcome, not later ones. -/
theorem lastCompletionSignal_determines_result (env : PaymentEnv)
    (input : PaymentWorkflowInput) (c : PaymentConfig) (r : PaymentResult)
    (sigs : List PaymentSignal) (b : Bool) (p : Option String)
    (hc : env.config = some c) (hg : env.gateway = .ok r)
    (hra : r.status = "requires_action")
    (hsig : env.signals = sigs ++ [.completePayment b p])
    (hnc : PaymentSignal.cancelPayment ∉ env.signals)
    (hu : ∀ n, env.updateOutcome n = none) :
    (PaymentWorkflow env input).2 =
      .ok { success := b, status := if b then "captured" else "failed",
            processorTransactionId := p } ∧
    (PaymentWorkflow env input).1.getLast? =
      some (.updateOrderStatus
        { orderId := input.orderId, status := if b then "captured" else "failed",
          processorOrderId := r.processorOrderId, processorTransactionId := p }) := by
  have happ := applySignals_append_completePayment sigs b p
  have hcanf : (applySignals sigs).cancelled = false := by
    rw [Bool.eq_false_iff]
    intro hcv
    apply hnc
    rw [hsig]
    exact List.mem_append_left _ ((applySignals_cancelled_iff sigs).mp hcv)
  constructor <;>
    simp [PaymentWorkflow, PaymentWorkflowTry, doUpdateOrderStatus, hc, hg, hra, hsig, hu,
          happ, hcanf]

/-- C3 witness: the amended statement at the concrete two-signal race. -/
theorem lastCompletionSignal_determines_result_witness :
    (PaymentWorkflow signalRaceEnv witnessInput).2 =
      .ok { success := false, status := "failed", processorTransactionId := some "tx_second" } ∧
    (PaymentWorkflow signalRaceEnv witnessInput).1.getLast? =
      some (.updateOrderStatus
        { orderId := "o1", status := "failed", processorOrderId := some "pi_1",
          processorTransactionId := some "tx_second" }) :=
  lastCompletionSignal_determines_result signalRaceEnv witnessInput sampleConfig
    requiresActionResult [.completePayment true (some "tx_first")] false (some "tx_second")
    rfl rfl rfl rfl (by decide) (fun _ => rfl)

/-! ## C4: failure of a terminal-state persistence write -/

/-- C4 counterexample: the gateway outcome is captured, the terminal
order-status write raises, the catch-block write succeeds; the run returns
the workflow_error failure result, which does not reflect the captured
outcome determined before the write. -/
theorem terminalWriteFailure_result_cex :
    (PaymentWorkflow writeFailEnv witnessInput).2 =
      .ok { success := false, status := "failed", errorCode := some "workflow_error",
            errorMessage := some "db write failed" } ∧
    writeFailEnv.gateway = .ok capturedResult ∧
    ({ success := false, status := "failed", errorCode := some "workflow_error",
       errorMessage := some "db write failed" } : PaymentResult) ≠ capturedResult :=
  ⟨rfl, rfl, by decide⟩

/-- C4 (amended): on every run whose terminal-state order-status write raises
with message msg — the missing-config path, a direct-terminal gateway
outcome, or any of the three wait resolutions (completion signal,
cancellation, timeout) of a requires_action run whose intermediate write
succeeded — the catch block replaces the pre-write payment outcome: the run
returns success false, status failed, errorCode workflow_error and
errorMessage msg if the catch-block status-failed write succeeds, and raises
an unhandled fault with the second message if that write raises too; the
write failure is surfaced only inside the returned result (or as the fault),
never alongside the original outcome. -/
theorem terminalWriteFailure_yields_workflowError (env : PaymentEnv)
    (input : PaymentWorkflowInput) (msg : String)
    (h : terminalWriteRaises env msg) :
    (PaymentWorkflow env input).2 =
      (match env.updateOutcome (catchWriteIdx env) with
       | none => .ok { success := false, status := "failed",
                       errorCode := some "workflow_error", errorMessage := some msg }
       | some m2 => .error m2) := by
  rcases h with ⟨hc, h0⟩ | ⟨c, r, hc, hg, hra, h0⟩ | ⟨c, r, hc, hg, hra, h0, h1⟩
  · cases hcatch : env.updateOutcome 1 with
    | none =>
        simp [PaymentWorkflow, PaymentWorkflowTry, doUpdateOrderStatus, catchWriteIdx,
              hc, h0, hcatch]
    | some m2 =>
        simp [PaymentWorkflow, PaymentWorkflowTry, doUpdateOrderStatus, catchWriteIdx,
              hc, h0, hcatch]
  · have hbeq : (r.status == "requires_action") = false := by simp [hra]
    cases hcatch : env.updateOutcome 1 with
    | none =>
        simp [PaymentWorkflow, PaymentWorkflowTry, doUpdateOrderStatus, catchWriteIdx,
              hc, hg, hbeq, h0, hcatch]
    | some m2 =>
        simp [PaymentWorkflow, PaymentWorkflowTry, doUpdateOrderStatus, catchWriteIdx,
              hc, hg, hbeq, h0, hcatch]
  · have hbeq : (r.status == "requires_action") = true := by simp [hra]
    by_cases hcv : (applySignals env.signals).cancelled = true
    · cases hcatch : env.updateOutcome 2 with
      | none =>
          simp [PaymentWorkflow, PaymentWorkflowTry, doUpdateOrderStatus, catchWriteIdx,
                hc, hg, hbeq, hcv, h0, h1, hcatch]
      | some m2 =>
          simp [PaymentWorkflow, PaymentWorkflowTry, doUpdateOrderStatus, catchWriteIdx,
                hc, hg, hbeq, hcv, h0, h1, hcatch]
    · have hcf : (applySignals env.signals).cancelled = false := by simpa using hcv
      by_cases hpc : (applySignals env.signals).paymentCompleted = true
      · cases hpr : (applySignals env.signals).paymentResult with
        | some fr =>
            cases hcatch : env.updateOutcome 2 with
            | none =>
                simp [PaymentWorkflow, PaymentWorkflowTry, doUpdateOrderStatus, catchWriteIdx,
                      hc, hg, hbeq, hcf, hpc, hpr, h0, h1, hcatch]
            | some m2 =>
                simp [PaymentWorkflow, PaymentWorkflowTry, doUpdateOrderStatus, catchWriteIdx,
                      hc, hg, hbeq, hcf, hpc, hpr, h0, h1, hcatch]
        | none =>
            cases hcatch : env.updateOutcome 2 with
            | none =>
                simp [PaymentWorkflow, PaymentWorkflowTry, doUpdateOrderStatus, catchWriteIdx,
                      hc, hg, hbeq, hcf, hpc, hpr, h0, h1, hcatch]
            | some m2 =>
                simp [PaymentWorkflow, PaymentWorkflowTry, doUpdateOrderStatus, catchWriteIdx,
                      hc, hg, hbeq, hcf, hpc, hpr, h0, h1, hcatch]
      · have hpcf : (applySignals env.signals).paymentCompleted = false := by simpa using hpc
        cases hcatch : env.updateOutcome 2 with
        | none =>
            simp [PaymentWorkflow, PaymentWorkflowTry, doUpdateOrderStatus, catchWriteIdx,
                  hc, hg, hbeq, hcf, hpcf, h0, h1, hcatch]
        | some m2 =>
            simp [PaymentWorkflow, PaymentWorkflowTry, doUpdateOrderStatus, catchWriteIdx,
                  hc, hg, hbeq, hcf, hpcf, h0, h1, hcatch]

/-- C4 witness: the amended statement at the concrete timeout-path run whose
terminal write raises and whose catch-block write succeeds. -/
theorem terminalWriteFailure_yields_workflowError_witness :
    (PaymentWorkflow timeoutWriteFailEnv witnessInput).2 =
      .ok { success := false, status := "failed", errorCode := some "workflow_error",
            errorMessage := some "db down" } :=
  terminalWriteFailure_yields_workflowError timeoutWriteFailEnv witnessInput "db down"
    (Or.inr (Or.inr ⟨sampleConfig, requiresActionResult, rfl, rfl, rfl, rfl, rfl⟩))

/-! ## C5: cancellation overrides any completion signal -/

/-- C5 (confirmed): whenever a cancellation signal is among the deliveries
observed before the wait exits on a requires_action path, the run returns
success false, status failed, errorCode cancelled, and the terminal persisted
order status is cancelled, whatever completion signals were delivered before
or together with the cancellation (the statement holds for every signal
list containing cancelPayment, so the completion data has no effect). -/
theorem cancellation_overrides_completion (env : PaymentEnv)
    (input : PaymentWorkflowInput) (c : PaymentConfig) (r : PaymentResult)
    (hc : env.config = some c) (hg : env.gateway = .ok r)
    (hra : r.status = "requires_action")
    (hcan : PaymentSignal.cancelPayment ∈ env.signals)
    (hu : ∀ n, env.updateOutcome n = none) :
    (PaymentWorkflow env input).2 =
      .ok { success := false, status := "failed", errorCode := some "cancelled",
            errorMessage := some "Payment cancelled" } ∧
    (PaymentWorkflow env input).1.getLast? =
      some (.updateOrderStatus { orderId := input.orderId, status := "cancelled" }) := by
  have hcv : (applySignals env.signals).cancelled = true :=
    (applySignals_cancelled_iff env.signals).mpr hcan
  constructor <;>
    simp [PaymentWorkflow, PaymentWorkflowTry, doUpdateOrderStatus, hc, hg, hra, hu, hcv]

/-- C5 witness: a completion signal followed by a cancellation. -/
theorem cancellation_overrides_completion_witness :
    (PaymentWorkflow cancelEnv witnessInput).2 =
      .ok { success := false, status := "failed", errorCode := some "cancelled",
            errorMessage := some "Payment cancelled" } ∧
    (PaymentWorkflow cancelEnv witnessInput).1.getLast? =
      some (.updateOrderStatus { orderId := "o1", status := "cancelled" }) :=
  cancellation_overrides_completion cancelEnv witnessInput sampleConfig requiresActionResult
    rfl rfl rfl (by decide) (fun _ => rfl)

/-! ## C6: the fifteen-minute timeout path -/

/-- C6 (confirmed): on a requires_action path with no signal delivered before
the fixed 900000 ms wait elapses, the run performs the intermediate
requires_action update, waits with timeout 900000, persists order status
failed and returns success false, status failed, errorCode timeout. -/
theorem timeout_path_result (env : PaymentEnv) (input : PaymentWorkflowInput)
    (c : PaymentConfig) (r : PaymentResult)
    (hc : env.config = some c) (hg : env.gateway = .ok r)
    (hra : r.status = "requires_action")
    (hs : env.signals = [])
    (hu : ∀ n, env.updateOutcome n = none) :
    PaymentWorkflow env input =
      ([.getProcessorConfig input.merchantId "stripe", .processPayment,
        .updateOrderStatus { orderId := input.orderId, status := "requires_action",
                             processorOrderId := r.processorOrderId },
        .conditionWait 900000,
        .updateOrderStatus { orderId := input.orderId, status := "failed" }],
       .ok { success := false, status := "failed", errorCode := some "timeout",
             errorMessage := some "Payment timeout" }) := by
  simp [PaymentWorkflow, PaymentWorkflowTry, doUpdateOrderStatus, hc, hg, hra, hs, hu,
        applySignals, initialSignalState]

/-- C6 witness: the timeout scenario at the concrete environment. -/
theorem timeout_path_result_witness :
    PaymentWorkflow timeoutEnv witnessInput =
      ([.getProcessorConfig "m1" "stripe", .processPayment,
        .updateOrderStatus { orderId := "o1", status := "requires_action",
                             processorOrderId := some "pi_1" },
        .conditionWait 900000,
        .updateOrderStatus { orderId := "o1", status := "failed" }],
       .ok { success := false, status := "failed", errorCode := some "timeout",
             errorMessage := some "Payment timeout" }) :=
  timeout_path_result timeoutEnv witnessInput sampleConfig requiresActionResult
    rfl rfl rfl rfl (fun _ => rfl)

/-! ## C7: each return path ends in exactly one persistence call -/

/-- C7 (confirmed): when the persistence writes succeed, every run returns a
result (no fault), the last awaited action of the run is an order-status
persistence call for the run's orderId, every persistence call other than
that last one is the intermediate requires_action update (so the terminal
transition performs exactly one, as the last action), and on the fatal-error
path (gateway raise) the status persisted by that last call is failed. -/
theorem terminal_persistence_is_last_action (env : PaymentEnv)
    (input : PaymentWorkflowInput)
    (hu : ∀ n, env.updateOutcome n = none) :
    (∃ res, (PaymentWorkflow env input).2 = .ok res) ∧
    ((PaymentWorkflow env input).1.getLast?).map isUpdate = some true ∧
    ((PaymentWorkflow env input).1.getLast?).bind actionOrderId = some input.orderId ∧
    (∀ a ∈ ((PaymentWorkflow env input).1.filter isUpdate).dropLast,
        actionStatus a = some "requires_action") ∧
    (∀ e, env.gateway = .error e → env.config ≠ none →
        ((PaymentWorkflow env input).1.getLast?).bind actionStatus = some "failed") := by
  cases hcfg : env.config with
  | none =>
      refine ⟨?_, ?_, ?_, ?_, ?_⟩ <;>
        simp [PaymentWorkflow, PaymentWorkflowTry, doUpdateOrderStatus, hcfg, hu, isUpdate,
              actionStatus, actionOrderId]
  | some c =>
    cases hgw : env.gateway with
    | error e =>
        refine ⟨?_, ?_, ?_, ?_, ?_⟩ <;>
          simp [PaymentWorkflow, PaymentWorkflowTry, doUpdateOrderStatus, hcfg, hgw, hu,
                isUpdate, actionStatus, actionOrderId]
    | ok r =>
      by_cases hra : r.status = "requires_action"
      · have hbeq : (r.status == "requires_action") = true := by simp [hra]
        by_cases hcv : (applySignals env.signals).cancelled = true
        · refine ⟨?_, ?_, ?_, ?_, ?_⟩ <;>
            simp [PaymentWorkflow, PaymentWorkflowTry, doUpdateOrderStatus, hcfg, hgw, hbeq,
                  hcv, hu, isUpdate, actionStatus, actionOrderId]
        · have hcf : (applySignals env.signals).cancelled = false := by simpa using hcv
          by_cases hpc : (applySignals env.signals).paymentCompleted = true
          · cases hpr : (applySignals env.signals).paymentResult with
            | some fr =>
                refine ⟨?_, ?_, ?_, ?_, ?_⟩ <;>
                  simp [PaymentWorkflow, PaymentWorkflowTry, doUpdateOrderStatus, hcfg, hgw,
                        hbeq, hcf, hpc, hpr, hu, isUpdate, actionStatus, actionOrderId]
            | none =>
                refine ⟨?_, ?_, ?_, ?_, ?_⟩ <;>
                  simp [PaymentWorkflow, PaymentWorkflowTry, doUpdateOrderStatus, hcfg, hgw,
                        hbeq, hcf, hpc, hpr, hu, isUpdate, actionStatus, actionOrderId]
          · have hpcf : (applySignals env.signals).paymentCompleted = false := by
              simpa using hpc
            refine ⟨?_, ?_, ?_, ?_, ?_⟩ <;>
              simp [PaymentWorkflow, PaymentWorkflowTry, doUpdateOrderStatus, hcfg, hgw, hbeq,
                    hcf, hpcf, hu, isUpdate, actionStatus, actionOrderId]
      · have hbeq : (r.status == "requires_action") = false := by simp [hra]
        refine ⟨?_, ?_, ?_, ?_, ?_⟩ <;>
          simp [PaymentWorkflow, PaymentWorkflowTry, doUpdateOrderStatus, hcfg, hgw, hbeq, hu,
                isUpdate, actionStatus, actionOrderId]

/-- C7 witness: on the concrete timeout scenario the run returns a result. -/
theorem terminal_persistence_is_last_action_witness :
    ∃ res, (PaymentWorkflow timeoutEnv witnessInput).2 = .ok res :=
  (terminal_persistence_is_last_action timeoutEnv witnessInput (fun _ => rfl)).1

end Payloops
